import Mathlib

/-! The offload-and-complete protocol of `vector_server.cpp`.

A shallow embedding of `src/vector_server.cpp`: the submission entry point
`render`, the worker step `async_render` and the completion step `after_render`.

What the file calls into but does not define is taken as data or as a parameter:

* the host runtime's values (`Value`), as far as the file inspects or builds them;
* `Map::active()` of each Map object (`World.active`; `mapnik_map.hpp`);
* the rendering collaborator (`Computation`; `vector_renderer.hpp`, `dummy_backend.hpp`);
* what a call of a JavaScript function does under a `TryCatch` (`Host`).
-/

namespace VectorServer

/-! ## Data model -/

/-- Contents of a `std::string` used as a byte buffer. -/
abbrev Bytes := List UInt8

/-- Values of the host runtime (`v8::Value`), as far as this file inspects or builds them.
A message is the text that `String::New` reads from the C string it is given. -/
inductive Value where
  /-- The value `Undefined()`, also what `args[i]` is beyond `args.Length()`. -/
  | undefined
  /-- The value `Null()`. -/
  | null
  /-- An object for which `Map::constructor->HasInstance` holds; it wraps the Map at `addr`. -/
  | map (addr : Nat)
  /-- A value for which `IsFunction()` holds; `cb` identifies the function. -/
  | function (cb : Nat)
  /-- Any other value. -/
  | other (tag : Nat)
  /-- The exception object `Exception::TypeError(String::New(msg))`. -/
  | typeError (msg : String)
  /-- The exception object `Exception::Error(String::New(msg))`. -/
  | error (msg : String)
  /-- The handle of `Buffer::New(data, size)`: a buffer holding a copy of `size` bytes. -/
  | buffer (bytes : Bytes)
  deriving DecidableEq, Repr

/-- The job, `struct render_state` (lines 33-40). `m` and `callback` are references: the
address of the Map and the identity of the persistent function handle. `error_message` is
any `std::string`, embedded NUL characters included. -/
structure render_state where
  m : Nat
  error : Bool
  error_message : String
  output : Bytes
  callback : Nat
  deriving DecidableEq, Repr

/-- How a call of `render` ends. -/
inductive Outcome where
  /-- The call returns the value `v` with nothing thrown. -/
  | ok (v : Value)
  /-- The call returns after `ThrowException(exc)`: the caller sees `exc` thrown. -/
  | error (exc : Value)
  /-- The call dereferences an empty handle: it has no defined result (in practice the
  process faults), and nothing was thrown by `render` itself. -/
  | fault
  deriving DecidableEq, Repr

/-- What `after_render` does that is visible outside the job. -/
inductive Event where
  /-- The call `state->callback->Call(Context::GetCurrent()->Global(), argc, argv)`. -/
  | call (cb : Nat) (argv : List Value)
  /-- The escalation `node::FatalException(try_catch)`, with the exception caught. -/
  | fatal (exc : Value)
  /-- The release `state->callback.Dispose()`. -/
  | dispose (cb : Nat)
  /-- The statement `delete state`. -/
  | delete_state
  /-- The statement `delete req`. -/
  | delete_req
  deriving DecidableEq, Repr

/-- The surroundings of `render`: the Map objects' in-use counters, the work requests
handed to `uv_queue_work` (oldest first) and the events so far. -/
structure World where
  active : Nat → Int
  queue : List render_state
  trace : List Event

/-- The rendering collaborator, `ren.apply()` followed by `backend.output_vector_tile()`,
run on the Map at the given address: either it raises (the exception's `what()`), or it
leaves a scratch buffer in `output` and returns a byte count. -/
abbrev Computation := Nat → Except String (Bytes × Nat)

/-- What calling function `cb` with `argv` does under a `TryCatch`: `none` when the call
returns, `some exc` when `try_catch.HasCaught()` with exception `exc`. -/
abbrev Host := Nat → List Value → Option Value

/-! ## Host primitives used by `render` -/

/-- The conversion `v->ToObject()`, with no `IsObject()` test before it. An object is
itself and a primitive is wrapped in an object (still no Map instance and no function);
for `undefined` and `null` the conversion throws inside the host and the handle returned
is empty (`none`). -/
def ToObject : Value → Option Value
  | .undefined => none
  | .null => none
  | v => some v

/-- The test `Map::constructor->HasInstance(obj)` on a handle that is not empty. -/
def HasInstance : Value → Bool
  | .map _ => true
  | _ => false

/-- The test `v->IsFunction()`. -/
def IsFunction : Value → Bool
  | .function _ => true
  | _ => false

/-- The pointer `ObjectWrap::Unwrap<Map>(obj)`: the wrapped Map (null, 0, when there is
none). -/
def Unwrap : Value → Nat
  | .map addr => addr
  | _ => 0

/-- The handle `Persistent<Function>::New(Local<Function>::Cast(v))`. -/
def Cast : Value → Nat
  | .function cb => cb
  | _ => 0

/-- The argument `args[i]`: the i-th one, `Undefined()` beyond the last. -/
def arg (args : List Value) (i : Nat) : Value := args.getD i .undefined

/-- The character NUL, which ends a C string. -/
def NUL : Char := Char.ofNat 0

/-- The text that `String::New(s.c_str())` reads: `c_str()` gives a pointer with no length,
and `String::New(const char*)` reads up to the first NUL, so the characters of `s` from
its first NUL on are dropped. -/
def c_str (s : String) : String := ⟨s.data.takeWhile (fun c => c != NUL)⟩

/-! ## `render` (lines 46-84) -/

/-- The message of lines 51-52. -/
def arity_message : String :=
  "requires at least two arguments, a renderable mapnik object, and a callback"

/-- The message of lines 57-58. -/
def map_message : String := "First argument must be a Map object"

/-- The message of lines 63-64. -/
def callback_message : String := "Second argument must be a callback function"

/-- The message of lines 70-71. -/
def engaged_message : String :=
  "Use a map pool to avoid sharing map objects between concurrent rendering"

/-- The exception thrown when `args.Length() != 2`. -/
def arity_error : Value := .typeError arity_message

/-- The exception thrown when the first argument is no Map instance. -/
def map_error : Value := .typeError map_message

/-- The exception thrown when the second argument is no function. -/
def callback_error : Value := .typeError callback_message

/-- The exception thrown when `m->active() != 0`. -/
def engaged_error : Value := .typeError engaged_message

/-- The submission entry point: how the call ends, with the world it leaves. Line 55
passes `args[0]->ToObject()` to `HasInstance` unchecked, so an empty handle is dereferenced
there; line 67 converts the same argument again, to the same object. -/
def render (args : List Value) (w : World) : Outcome × World :=
  if args.length ≠ 2 then (.error arity_error, w)
  else
    match ToObject (arg args 0) with
    | none => (.fault, w)
    | some obj =>
      if !HasInstance obj then (.error map_error, w)
      else if !IsFunction (arg args 1) then (.error callback_error, w)
      else
        let m := Unwrap obj
        if w.active m ≠ 0 then (.error engaged_error, w)
        else
          let callback := Cast (arg args 1)
          let state : render_state :=
            { m := m, error := false, error_message := "", output := [],
              callback := callback }
          (.ok .undefined, { w with queue := w.queue ++ [state] })

/-- The job that `render` creates for Map `addr` and function `cb` (lines 75-78). -/
def fresh_job (addr cb : Nat) : render_state :=
  { m := addr, error := false, error_message := "", output := [], callback := cb }

/-! ## `async_render` (lines 86-96) -/

/-- The library function `std::string::substr(pos, len)`: throws `out_of_range` when `pos > size()`, otherwise
the characters from `pos` on, at most `len` of them. -/
def substr (s : Bytes) (pos len : Nat) : Except String Bytes :=
  if pos > s.length then .error "basic_string::substr" else .ok ((s.drop pos).take len)

/-- The worker step. The function has no handler, so an exception raised by the collaborator
(or by `substr`) leaves it: the result is the pending exception, if any, with the job state
as it then is. -/
def async_render (compute : Computation) (state : render_state) :
    Except String Unit × render_state :=
  match compute state.m with
  | .error what => (.error what, state)
  | .ok (output, count) =>
    let bytes := count % 2 ^ 32
    match substr output 0 bytes with
    | .error what => (.error what, state)
    | .ok out => (.ok (), { state with output := out })

/-! ## `after_render` (lines 98-137) -/

/-- The completion step: the events it produces, in order. A `match` on `call` stands for
the `TryCatch` around `callback->Call(...)` and the test of `try_catch.HasCaught()`. The
error is built from `error_message.c_str()` (line 105), the buffer from `output.data()`
and `output.size()` (line 119). -/
def after_render (call : Host) (state : render_state) : List Event :=
  (if state.error then
    let err := Value.error (c_str state.error_message)
    let argv := [err]
    match call state.callback argv with
    | some exc => [.call state.callback argv, .fatal exc]
    | none => [.call state.callback argv]
  else
    let buf := Value.buffer state.output
    let argv := [Value.null, buf]
    match call state.callback argv with
    | some exc => [.call state.callback argv, .fatal exc]
    | none => [.call state.callback argv])
  ++ [.dispose state.callback, .delete_state, .delete_req]

/-! ## The work queue -/

/-- One job as the work queue of line 81 runs it, `uv_queue_work(loop, req, async_render,
after_render)`: the work callback, then the after-work callback. An exception that leaves
`async_render` has no handler on the pool thread (the process is terminated), so the
completion step is not reached. The result is the exception left pending, if any, and the
events produced. -/
def run_job (compute : Computation) (call : Host) (state : render_state) :
    Option String × List Event :=
  match async_render compute state with
  | (.ok (), state') => (none, after_render call state')
  | (.error what, _) => (some what, [])

/-! ## Reading a trace -/

/-- The invocations in a trace, in order: the function called and its argument list. -/
def calls : List Event → List (Nat × List Value)
  | [] => []
  | .call cb argv :: rest => (cb, argv) :: calls rest
  | _ :: rest => calls rest

/-- The number of invocations of function `cb` in a trace. -/
def invocations (cb : Nat) : List Event → Nat
  | [] => 0
  | .call cb' _ :: rest => (if cb' = cb then 1 else 0) + invocations cb rest
  | _ :: rest => invocations cb rest

/-- A value that is neither `null` nor absent (`undefined`). -/
def non_null (v : Value) : Bool := v != .null && v != .undefined

/-- The exceptions escalated by `node::FatalException` in a trace, in order. -/
def escalated : List Event → List Value
  | [] => []
  | .fatal exc :: rest => exc :: escalated rest
  | _ :: rest => escalated rest

/-! ## The specification's names for the synchronous failures -/

/-- The classes of the specification's error taxonomy (section 7) that are reported
synchronously. The source has no such type: every synchronous failure is a `TypeError`
told apart by its message. -/
inductive ErrorClass where
  | InvalidArgument
  | InvalidState
  deriving DecidableEq, Repr

/-- Following the specification (section 7): `InvalidState` is the failure for a resource
already engaged, `InvalidArgument` the failure for a wrong count or type of arguments. -/
def error_class (exc : Value) : Option ErrorClass :=
  if exc = engaged_error then some .InvalidState
  else if exc = arity_error ∨ exc = map_error ∨ exc = callback_error then some .InvalidArgument
  else none

/-! ## Shared lemmas -/

theorem render_map_function (w : World) (addr cb : Nat) :
    render [.map addr, .function cb] w =
      if w.active addr ≠ 0 then (.error engaged_error, w)
      else (.ok .undefined, { w with queue := w.queue ++ [fresh_job addr cb] }) := by
  simp [render, ToObject, HasInstance, IsFunction, Unwrap, Cast, arg, fresh_job]

theorem render_accepts (w : World) (addr cb : Nat) (h : w.active addr = 0) :
    render [.map addr, .function cb] w =
      (.ok .undefined, { w with queue := w.queue ++ [fresh_job addr cb] }) := by
  rw [render_map_function]; simp [h]

theorem render_engaged (w : World) (addr cb : Nat) (h : w.active addr ≠ 0) :
    render [.map addr, .function cb] w = (.error engaged_error, w) := by
  rw [render_map_function]; simp [h]

theorem substr_zero (s : Bytes) (n : Nat) : substr s 0 n = .ok (s.take n) := by
  simp [substr]

theorem async_render_ok (compute : Computation) (state : render_state) (s : Bytes) (n : Nat)
    (h : compute state.m = .ok (s, n)) :
    async_render compute state = (.ok (), { state with output := s.take (n % 2 ^ 32) }) := by
  simp [async_render, h, substr_zero]

theorem async_render_raises (compute : Computation) (state : render_state) (what : String)
    (h : compute state.m = .error what) :
    async_render compute state = (.error what, state) := by
  simp [async_render, h]

theorem has_instance_iff (v : Value) : HasInstance v = true ↔ ∃ addr, v = .map addr := by
  cases v <;> simp [HasInstance]

theorem is_function_iff (v : Value) : IsFunction v = true ↔ ∃ cb, v = .function cb := by
  cases v <;> simp [IsFunction]

/-! ## Submission -/

/-- C2: a submission with two well-typed arguments (a Map instance and a function) whose
Map reports `active() != 0` fails synchronously with the engagement exception, which is the
specification's `InvalidState`; the world is left as it was: no job is added to the work
queue and no callback is invoked. -/
theorem render_active_fails (w : World) (addr cb : Nat) (h : w.active addr ≠ 0) :
    render [.map addr, .function cb] w = (.error engaged_error, w)
      ∧ error_class engaged_error = some .InvalidState
      ∧ (render [.map addr, .function cb] w).2.queue = w.queue
      ∧ (render [.map addr, .function cb] w).2.trace = w.trace
      ∧ calls (render [.map addr, .function cb] w).2.trace = calls w.trace := by
  rw [render_engaged w addr cb h]
  exact ⟨rfl, by decide, rfl, rfl, rfl⟩

theorem render_active_fails_witness :
    render [.map 1, .function 7] ⟨fun _ => 1, [], []⟩
        = (.error engaged_error, ⟨fun _ => 1, [], []⟩)
      ∧ error_class engaged_error = some .InvalidState
      ∧ (render [.map 1, .function 7] ⟨fun _ => 1, [], []⟩).2.queue = []
      ∧ (render [.map 1, .function 7] ⟨fun _ => 1, [], []⟩).2.trace = []
      ∧ calls (render [.map 1, .function 7] ⟨fun _ => 1, [], []⟩).2.trace = calls [] :=
  render_active_fails ⟨fun _ => 1, [], []⟩ 1 7 (by decide)

/-- C6, the code against the claim. `render` accepts a submission (returns, and queues one
job) if and only if the arguments are exactly a Map instance and a function and the Map is
not active. A wrong argument count, a first argument that converts to an object that is no
Map, a second argument that is no function and an active Map each throw their own message,
in that order and with the world left as it was; the four messages are pairwise distinct
and three or more arguments get the arity message. The claim fails where the first of two
arguments is `undefined` or `null`: line 55 converts it with no `IsObject()` test, the
handle is empty and `HasInstance` dereferences it, so the call ends in a fault and not in
the exception "First argument must be a Map object". -/
theorem render_accepts_iff (args : List Value) (w : World) :
    ((render args w).1 = .ok .undefined ↔
        ∃ addr cb, args = [.map addr, .function cb] ∧ w.active addr = 0)
      ∧ (∀ addr cb, args = [.map addr, .function cb] → w.active addr = 0 →
          render args w = (.ok .undefined, { w with queue := w.queue ++ [fresh_job addr cb] }))
      ∧ (args.length ≠ 2 → render args w = (.error arity_error, w))
      ∧ (args.length = 2 → ToObject (arg args 0) = none → render args w = (.fault, w))
      ∧ (∀ obj, args.length = 2 → ToObject (arg args 0) = some obj → HasInstance obj = false →
          render args w = (.error map_error, w))
      ∧ (∀ obj, args.length = 2 → ToObject (arg args 0) = some obj → HasInstance obj = true →
          IsFunction (arg args 1) = false → render args w = (.error callback_error, w))
      ∧ (∀ obj, args.length = 2 → ToObject (arg args 0) = some obj → HasInstance obj = true →
          IsFunction (arg args 1) = true → w.active (Unwrap obj) ≠ 0 →
          render args w = (.error engaged_error, w))
      ∧ [arity_message, map_message, callback_message, engaged_message].Nodup
      ∧ (3 ≤ args.length → render args w = (.error arity_error, w))
      ∧ render [.undefined, .function 7] w = (.fault, w)
      ∧ render [.null, .function 7] w = (.fault, w)
      ∧ render [.undefined, .function 7] w ≠ (.error map_error, w) := by
  refine ⟨?_, ?_, ?_, ?_, ?_, ?_, ?_, by decide, ?_, rfl, rfl, ?_⟩
  · rcases args with _ | ⟨a, _ | ⟨b, _ | ⟨c, rest⟩⟩⟩
    · simp [render]
    · simp [render]
    · cases a <;> cases b <;>
        simp [render, ToObject, HasInstance, IsFunction, Unwrap, Cast, arg]
      rename_i addr cb
      by_cases h0 : w.active addr = 0 <;> simp [h0]
    · simp [render]
  · intro addr cb hargs h0
    subst hargs
    exact render_accepts w addr cb h0
  · intro h0; simp [render, h0]
  · intro h0 h1; simp [render, h0, h1]
  · intro obj h0 h1 h2; simp [render, h0, h1, h2]
  · intro obj h0 h1 h2 h3; simp [render, h0, h1, h2, h3]
  · intro obj h0 h1 h2 h3 h4; simp [render, h0, h1, h2, h3, h4]
  · intro h0
    have h : args.length ≠ 2 := by omega
    simp [render, h]
  · simp [render, ToObject, arg]

/-! ## Completion -/

theorem after_render_error (call : Host) (state : render_state) (h : state.error = true) :
    after_render call state =
      (match call state.callback [.error (c_str state.error_message)] with
        | some exc => [.call state.callback [.error (c_str state.error_message)], .fatal exc]
        | none => [.call state.callback [.error (c_str state.error_message)]])
      ++ [.dispose state.callback, .delete_state, .delete_req] := by
  simp [after_render, h]

theorem after_render_success (call : Host) (state : render_state) (h : state.error = false) :
    after_render call state =
      (match call state.callback [.null, .buffer state.output] with
        | some exc => [.call state.callback [.null, .buffer state.output], .fatal exc]
        | none => [.call state.callback [.null, .buffer state.output]])
      ++ [.dispose state.callback, .delete_state, .delete_req] := by
  simp [after_render, h]

theorem calls_after_render_error (call : Host) (state : render_state)
    (h : state.error = true) :
    calls (after_render call state)
      = [(state.callback, [.error (c_str state.error_message)])] := by
  rw [after_render_error call state h]
  cases call state.callback [.error (c_str state.error_message)] <;> simp [calls]

theorem calls_after_render_success (call : Host) (state : render_state)
    (h : state.error = false) :
    calls (after_render call state) = [(state.callback, [.null, .buffer state.output])] := by
  rw [after_render_success call state h]
  cases call state.callback [.null, .buffer state.output] <;> simp [calls]

theorem invocations_after_render (call : Host) (state : render_state) :
    (calls (after_render call state)).length = 1
      ∧ invocations state.callback (after_render call state) = 1 := by
  cases h : state.error
  · rw [after_render_success call state h]
    cases hc : call state.callback [.null, .buffer state.output] <;>
      simp [calls, invocations]
  · rw [after_render_error call state h]
    cases hc : call state.callback [.error (c_str state.error_message)] <;>
      simp [calls, invocations]

theorem c_str_of_no_nul (s : String) (h : NUL ∉ s.data) : c_str s = s := by
  have hall : ∀ c ∈ s.data, (c != NUL) = true := by
    intro c hc
    have hne : c ≠ NUL := fun heq => h (heq ▸ hc)
    simpa using hne
  have htake : s.data.takeWhile (fun c => c != NUL) = s.data :=
    List.takeWhile_eq_self_iff.mpr hall
  simp [c_str, htake]

/-- C7, as the claim states it, fails: for a job with the error flag set and the message
"ab", NUL, "cd", the callback receives an error whose message is "ab", not the job's
`error_message`. -/
theorem after_render_message_counterexample :
    calls (after_render (fun _ _ => none)
        { m := 1, error := true, error_message := "ab\x00cd", output := [], callback := 7 })
        = [(7, [.error "ab"])]
      ∧ ("ab" : String) ≠ "ab\x00cd" := by
  decide

/-- C7, amended: the argument list of the one invocation `after_render` makes depends on
the error flag alone. With the flag set it is one argument, an error whose message is
`error_message` read as a C string (up to its first NUL), which is `error_message` itself
when that has no NUL; otherwise two, `null` and a buffer holding the job's output. In
every invocation exactly one of the error (first) and payload (second) arguments is
non-null. -/
theorem after_render_arguments (call : Host) (state : render_state) :
    (state.error = true → calls (after_render call state)
        = [(state.callback, [.error (c_str state.error_message)])])
      ∧ (state.error = true → NUL ∉ state.error_message.data →
        calls (after_render call state) = [(state.callback, [.error state.error_message])])
      ∧ (state.error = false →
        calls (after_render call state) = [(state.callback, [.null, .buffer state.output])])
      ∧ (∀ p ∈ calls (after_render call state),
          xor (non_null (arg p.2 0)) (non_null (arg p.2 1)) = true) := by
  refine ⟨calls_after_render_error call state, ?_, calls_after_render_success call state, ?_⟩
  · intro h hnul
    rw [calls_after_render_error call state h, c_str_of_no_nul state.error_message hnul]
  · intro p hp
    cases h : state.error
    · rw [calls_after_render_success call state h] at hp
      simp at hp
      subst hp
      simp [arg, non_null]
    · rw [calls_after_render_error call state h] at hp
      simp at hp
      subst hp
      simp [arg, non_null]

/-- C8: on the error branch and on the success branch alike, `after_render` escalates
(`node::FatalException`) if and only if the invocation of the callback raised; what is
escalated is the exception caught, the callback is invoked once and not again, and a
callback that returns gives no escalation. -/
theorem after_render_fatal_iff (call : Host) (state : render_state) :
    (escalated (after_render call state) ≠ [] ↔
        ∃ p ∈ calls (after_render call state), (call p.1 p.2).isSome = true)
      ∧ (state.error = true → escalated (after_render call state)
          = (call state.callback [.error (c_str state.error_message)]).toList)
      ∧ (state.error = false → escalated (after_render call state)
          = (call state.callback [.null, .buffer state.output]).toList)
      ∧ (calls (after_render call state)).length = 1
      ∧ invocations state.callback (after_render call state) = 1 := by
  cases h : state.error
  · rw [after_render_success call state h]
    cases hc : call state.callback [.null, .buffer state.output] <;>
      simp [hc, calls, escalated, invocations]
  · rw [after_render_error call state h]
    cases hc : call state.callback [.error (c_str state.error_message)] <;>
      simp [hc, calls, escalated, invocations]

/-! ## Worker step -/

/-- C9: `async_render` changes no field of the job but `output`: the callback reference,
the Map reference, the error flag and the error message are as before, whether the
computation returns or raises. The step invokes no callback: every event of a job's run is
an event of `after_render`. -/
theorem async_render_frame (compute : Computation) (state : render_state) :
    (async_render compute state).2.callback = state.callback
      ∧ (async_render compute state).2.m = state.m
      ∧ (async_render compute state).2.error = state.error
      ∧ (async_render compute state).2.error_message = state.error_message
      ∧ (∀ call : Host, (run_job compute call state).2 = []
          ∨ (run_job compute call state).2 = after_render call (async_render compute state).2) := by
  unfold run_job async_render
  cases h : compute state.m with
  | error what => simp
  | ok r =>
    obtain ⟨s, n⟩ := r
    simp [substr_zero]

/-- C10: for a scratch buffer `s` and a reported 32-bit byte count `n`, the truncation in
`async_render` does not fail and the output stored in the job is the prefix of `s` of
length `min n |s|`: a prefix of `s`, and all of `s` when `n` exceeds `|s|`. -/
theorem async_render_truncates (compute : Computation) (state : render_state)
    (s : Bytes) (n : Nat) (h : compute state.m = .ok (s, n)) (hn : n < 2 ^ 32) :
    (async_render compute state).1 = .ok ()
      ∧ substr s 0 n = .ok (s.take (min n s.length))
      ∧ (async_render compute state).2.output = s.take (min n s.length)
      ∧ (async_render compute state).2.output.length = min n s.length
      ∧ (async_render compute state).2.output <+: s
      ∧ (s.length < n → (async_render compute state).2.output = s) := by
  have hmod : n % 2 ^ 32 = n := Nat.mod_eq_of_lt hn
  have htake : s.take (min n s.length) = s.take n := by
    rcases Nat.le_total n s.length with hle | hle
    · rw [Nat.min_eq_left hle]
    · rw [Nat.min_eq_right hle, List.take_length, List.take_of_length_le hle]
  rw [async_render_ok compute state s n h, hmod, htake, substr_zero]
  refine ⟨rfl, rfl, rfl, ?_, List.take_prefix n s, ?_⟩
  · simp [List.length_take]
  · intro hlt
    exact List.take_of_length_le (Nat.le_of_lt hlt)

theorem async_render_truncates_witness :
    (async_render (fun _ => .ok ([1, 2, 3], 5)) (fresh_job 1 7)).1 = .ok ()
      ∧ substr [1, 2, 3] 0 5 = .ok (List.take (min 5 ([1, 2, 3] : Bytes).length) [1, 2, 3])
      ∧ (async_render (fun _ => .ok ([1, 2, 3], 5)) (fresh_job 1 7)).2.output
          = List.take (min 5 ([1, 2, 3] : Bytes).length) [1, 2, 3]
      ∧ (async_render (fun _ => .ok ([1, 2, 3], 5)) (fresh_job 1 7)).2.output.length
          = min 5 ([1, 2, 3] : Bytes).length
      ∧ (async_render (fun _ => .ok ([1, 2, 3], 5)) (fresh_job 1 7)).2.output <+: [1, 2, 3]
      ∧ (([1, 2, 3] : Bytes).length < 5 →
          (async_render (fun _ => .ok ([1, 2, 3], 5)) (fresh_job 1 7)).2.output = [1, 2, 3]) :=
  async_render_truncates (fun _ => .ok ([1, 2, 3], 5)) (fresh_job 1 7) [1, 2, 3] 5 rfl
    (by decide)

/-! ## A job from submission to completion -/

theorem run_job_ok (compute : Computation) (call : Host) (state : render_state)
    (s : Bytes) (n : Nat) (h : compute state.m = .ok (s, n)) :
    run_job compute call state
      = (none, after_render call { state with output := s.take (n % 2 ^ 32) }) := by
  simp [run_job, async_render_ok compute state s n h]

theorem run_job_raises (compute : Computation) (call : Host) (state : render_state)
    (what : String) (h : compute state.m = .error what) :
    run_job compute call state = (some what, []) := by
  simp [run_job, async_render_raises compute state what h]

/-- When the computation returns, the job's callback is invoked exactly once, whether the
callback itself returns or raises. -/
theorem run_job_ok_invokes_once (compute : Computation) (call : Host) (state : render_state)
    (s : Bytes) (n : Nat) (h : compute state.m = .ok (s, n)) :
    (calls (run_job compute call state).2).length = 1
      ∧ invocations state.callback (run_job compute call state).2 = 1 := by
  rw [run_job_ok compute call state s n h]
  exact invocations_after_render call { state with output := s.take (n % 2 ^ 32) }

/-- When the computation returns and the error flag is unset, the callback receives `null`
and a buffer holding the first `n % 2 ^ 32` bytes of the scratch buffer. -/
theorem run_job_ok_delivers (compute : Computation) (call : Host) (state : render_state)
    (s : Bytes) (n : Nat) (herr : state.error = false) (h : compute state.m = .ok (s, n)) :
    calls (run_job compute call state).2
      = [(state.callback, [.null, .buffer (s.take (n % 2 ^ 32))])] := by
  rw [run_job_ok compute call state s n h]
  exact calls_after_render_success call { state with output := s.take (n % 2 ^ 32) } herr

/-- C3, as the claim states it, fails: a computation that leaves a 3-byte scratch buffer and
reports 5 bytes has a 3-byte buffer delivered to the callback, not a 5-byte one. -/
theorem delivered_length_counterexample :
    (render [.map 1, .function 7] ⟨fun _ => 0, [], []⟩).2.queue = [fresh_job 1 7]
      ∧ calls (run_job (fun _ => .ok ([1, 2, 3], 5)) (fun _ _ => none) (fresh_job 1 7)).2
          = [(7, [.null, .buffer [1, 2, 3]])]
      ∧ ([1, 2, 3] : Bytes).length ≠ 5 := by
  refine ⟨rfl, ?_, by decide⟩
  decide

/-- C3, amended: for a job whose error flag is unset and a computation that returns a
scratch buffer `s` and reports a 32-bit byte count `n` with `n ≤ |s|`, the callback is
invoked with `null` and a buffer of length exactly `n`, the first `n` bytes of `s`, however
much larger the scratch buffer is. -/
theorem delivered_length (compute : Computation) (call : Host) (state : render_state)
    (s : Bytes) (n : Nat) (herr : state.error = false) (h : compute state.m = .ok (s, n))
    (hn : n < 2 ^ 32) (hle : n ≤ s.length) :
    ∃ bytes : Bytes,
      calls (run_job compute call state).2 = [(state.callback, [.null, .buffer bytes])]
        ∧ bytes.length = n ∧ bytes = s.take n := by
  refine ⟨s.take n, ?_, ?_, rfl⟩
  · rw [run_job_ok_delivers compute call state s n herr h, Nat.mod_eq_of_lt hn]
  · rw [List.length_take, Nat.min_eq_left hle]

theorem delivered_length_witness :
    ∃ bytes : Bytes,
      calls (run_job (fun _ => .ok (List.replicate 4096 0, 37)) (fun _ _ => none)
          (fresh_job 1 7)).2 = [(7, [.null, .buffer bytes])]
        ∧ bytes.length = 37 ∧ bytes = (List.replicate 4096 (0 : UInt8)).take 37 :=
  delivered_length (fun _ => .ok (List.replicate 4096 0, 37)) (fun _ _ => none)
    (fresh_job 1 7) (List.replicate 4096 0) 37 rfl rfl (by decide)
    (by rw [List.length_replicate]; decide)

/-- C5, as the claim states it, fails: `render` reads `active()` and never sets it, so with
the Map at address 1 unmarked a second submission against it, made while the first job is
still queued, is accepted as well and two jobs against the same Map are queued. -/
theorem second_submission_counterexample :
    (render [.map 1, .function 7] ⟨fun _ => 0, [], []⟩).1 = .ok .undefined
      ∧ (render [.map 1, .function 7] ⟨fun _ => 0, [], []⟩).2.queue = [fresh_job 1 7]
      ∧ (render [.map 1, .function 8]
          (render [.map 1, .function 7] ⟨fun _ => 0, [], []⟩).2).1 = .ok .undefined
      ∧ (render [.map 1, .function 8]
          (render [.map 1, .function 7] ⟨fun _ => 0, [], []⟩).2).2.queue
          = [fresh_job 1 7, fresh_job 1 8] :=
  ⟨rfl, rfl, rfl, rfl⟩

/-- C5, amended: `render` leaves every Map's `active()` as it was. If `render(R, cb1)` has
been accepted and, while its job is still queued, `R` reports `active() != 0` (marked by
the resource's owner), then a second `render(R, cb2)` fails synchronously with the
engagement exception (`InvalidState`) and queues nothing; the first job is still queued
and, when its computation returns, completes with one invocation of `cb1`. -/
theorem second_submission_rejected (w : World) (addr cb1 cb2 : Nat)
    (h1 : (render [.map addr, .function cb1] w).1 = .ok .undefined)
    (w2 : World) (hq : w2.queue = (render [.map addr, .function cb1] w).2.queue)
    (hact : w2.active addr ≠ 0) :
    (render [.map addr, .function cb1] w).2.active = w.active
      ∧ render [.map addr, .function cb2] w2 = (.error engaged_error, w2)
      ∧ error_class engaged_error = some .InvalidState
      ∧ fresh_job addr cb1 ∈ (render [.map addr, .function cb2] w2).2.queue
      ∧ (∀ (compute : Computation) (call : Host) (s : Bytes) (n : Nat),
          compute addr = .ok (s, n) →
            (run_job compute call (fresh_job addr cb1)).1 = none
              ∧ calls (run_job compute call (fresh_job addr cb1)).2
                  = [(cb1, [.null, .buffer (s.take (n % 2 ^ 32))])]) := by
  have h0 : w.active addr = 0 := by
    by_contra hne
    rw [render_engaged w addr cb1 hne] at h1
    simp at h1
  rw [render_accepts w addr cb1 h0] at hq
  rw [render_accepts w addr cb1 h0, render_engaged w2 addr cb2 hact]
  refine ⟨rfl, rfl, by decide, ?_, ?_⟩
  · simp [hq]
  · intro compute call s n hc
    have hc' : compute (fresh_job addr cb1).m = .ok (s, n) := hc
    refine ⟨?_, run_job_ok_delivers compute call (fresh_job addr cb1) s n rfl hc'⟩
    rw [run_job_ok compute call (fresh_job addr cb1) s n hc']

theorem second_submission_rejected_witness :
    (render [.map 1, .function 7] ⟨fun _ => 0, [], []⟩).2.active = (fun _ => 0)
      ∧ render [.map 1, .function 8] ⟨fun _ => 1, [fresh_job 1 7], []⟩
          = (.error engaged_error, ⟨fun _ => 1, [fresh_job 1 7], []⟩)
      ∧ error_class engaged_error = some .InvalidState
      ∧ fresh_job 1 7 ∈ (render [.map 1, .function 8] ⟨fun _ => 1, [fresh_job 1 7], []⟩).2.queue
      ∧ (∀ (compute : Computation) (call : Host) (s : Bytes) (n : Nat),
          compute 1 = .ok (s, n) →
            (run_job compute call (fresh_job 1 7)).1 = none
              ∧ calls (run_job compute call (fresh_job 1 7)).2
                  = [(7, [.null, .buffer (s.take (n % 2 ^ 32))])]) :=
  second_submission_rejected ⟨fun _ => 0, [], []⟩ 1 7 8 rfl ⟨fun _ => 1, [fresh_job 1 7], []⟩
    rfl (by decide)

/-- C4, the code at a computation that raises "out of memory": `async_render` has no
handler, so the exception leaves it with the job untouched (error flag still unset, no
message captured), the completion step is not reached and no callback is invoked; had the
failure been captured, the callback would have received `Error("out of memory")`. -/
theorem raise_not_captured :
    async_render (fun _ => .error "out of memory") (fresh_job 1 7)
        = (.error "out of memory", fresh_job 1 7)
      ∧ (async_render (fun _ => .error "out of memory") (fresh_job 1 7)).2.error = false
      ∧ (async_render (fun _ => .error "out of memory") (fresh_job 1 7)).2.error_message = ""
      ∧ calls (run_job (fun _ => .error "out of memory") (fun _ _ => none) (fresh_job 1 7)).2
          = []
      ∧ calls (after_render (fun _ _ => none)
            { fresh_job 1 7 with error := true, error_message := "out of memory" })
          = [(7, [.error "out of memory"])] :=
  ⟨rfl, rfl, rfl, rfl, by decide⟩

/-- C1, the code at an accepted submission whose computation raises: the submission is
accepted and its job queued, the run ends with the exception pending and the callback is
invoked zero times; with a computation that returns, the same job invokes it once. -/
theorem raising_job_invokes_nothing :
    (render [.map 1, .function 7] ⟨fun _ => 0, [], []⟩).1 = .ok .undefined
      ∧ (render [.map 1, .function 7] ⟨fun _ => 0, [], []⟩).2.queue = [fresh_job 1 7]
      ∧ run_job (fun _ => .error "out of memory") (fun _ _ => none) (fresh_job 1 7)
          = (some "out of memory", [])
      ∧ invocations 7
          (run_job (fun _ => .error "out of memory") (fun _ _ => none) (fresh_job 1 7)).2 = 0
      ∧ invocations 7
          (run_job (fun _ => .ok ([1, 2, 3], 2)) (fun _ _ => none) (fresh_job 1 7)).2 = 1 :=
  ⟨rfl, rfl, rfl, rfl, by decide⟩

end VectorServer
